import Mathlib

/-!
Verification of the health-state machine and RPC protocol handling of the
`rpc` package (file `rpc/rpc.go`) of the xmrpool repository.

The Go code is shallowly embedded: the mutable `RPCClient` struct becomes an
explicit state record threaded through the operations, Go `int64` arithmetic
is modelled on `Int` with an explicit two's-complement wrap, the external
HTTP round trip and the external JSON decoders become explicit outcome
parameters, and the unchecked type assertion in `doPost` (which can panic)
makes the embedded `doPost` return an `Option` whose `none` is the panic.
-/

namespace Rpc

/-- Two's-complement wrap onto the `int64` range, applied wherever the Go
code increments an `int64` field. -/
def wrap64 (x : Int) : Int :=
  (x + 9223372036854775808) % 18446744073709551616 - 9223372036854775808

/-- `GetInfoReply` (rpc.go lines 44-50). -/
structure GetInfoReply where
  incomingConnections : Int
  outgoingConnections : Int
  height : Int
  txPoolSize : Int
  status : String
  deriving Repr, DecidableEq

/-- The mutable state of `RPCClient` (rpc.go lines 17-32) read or written by
the operations modelled here: the health record (`sickRate`, `successRate`,
`sick`), the lifetime failure counter `FailsCount`, and the `atomic.Value`
info cache.  The remaining fields (`Accepts`, `Rejects`, `LastSubmissionAt`,
`Url`, `Name`, `client`) are never read nor written by the functions in
rpc.go that the claims concern; `Url`, `Name` and the HTTP client appear in
the separate construction model `NewRPCClient` below.

The info cache is `Option (Option GetInfoReply)`: the outer `Option` is
whether the `atomic.Value` has ever been stored (empty `atomic.Value` makes
the type assertion in `Info` yield nil), the inner one is the stored
`*GetInfoReply` pointer, which may itself be nil. -/
structure RPCClientState where
  sickRate : Int
  successRate : Int
  failsCount : Int
  sick : Bool
  info : Option (Option GetInfoReply)
  deriving Repr, DecidableEq

/-- A fresh client: Go zero values for all health fields, empty info cache
(`NewRPCClient` sets none of them). -/
def initState : RPCClientState :=
  { sickRate := 0, successRate := 0, failsCount := 0, sick := false,
    info := none }

/-- `Sick` (rpc.go lines 200-204): pure read of the `sick` flag. -/
def Sick (s : RPCClientState) : Bool :=
  s.sick

/-- `markSick` (rpc.go lines 206-217): if the client is not sick, increment
`FailsCount`; increment `sickRate`; zero `successRate`; if `sickRate` has
reached 5, set `sick`. -/
def markSick (s : RPCClientState) : RPCClientState :=
  let fc := if !s.sick then wrap64 (s.failsCount + 1) else s.failsCount
  let sr := wrap64 (s.sickRate + 1)
  { s with
    failsCount := fc
    sickRate := sr
    successRate := 0
    sick := if sr ≥ 5 then true else s.sick }

/-- `markAlive` (rpc.go lines 219-228): increment `successRate`; if it has
reached 5, clear `sick` and reset both streak counters to zero. -/
def markAlive (s : RPCClientState) : RPCClientState :=
  let su := wrap64 (s.successRate + 1)
  if su ≥ 5 then
    { s with sick := false, sickRate := 0, successRate := 0 }
  else
    { s with successRate := su }

/-- A health-state notification: one `markSick` or one `markAlive` call. -/
inductive HealthOp where
  | fail
  | succeed
  deriving Repr, DecidableEq

/-- Apply one notification to the state. -/
def applyOp (s : RPCClientState) : HealthOp → RPCClientState
  | .fail => markSick s
  | .succeed => markAlive s

/-- Run a sequence of notifications from a state. -/
def runOps (s : RPCClientState) (ops : List HealthOp) : RPCClientState :=
  ops.foldl applyOp s

theorem runOps_nil (s : RPCClientState) : runOps s [] = s := rfl

theorem runOps_cons (s : RPCClientState) (op : HealthOp) (ops : List HealthOp) :
    runOps s (op :: ops) = runOps (applyOp s op) ops := rfl

theorem runOps_append (s : RPCClientState) (a b : List HealthOp) :
    runOps s (a ++ b) = runOps (runOps s a) b :=
  List.foldl_append ..

/-- Claim C1: from the initial state (Alive, both streak counters zero),
exactly 5 consecutive failure notifications make `Sick` return true, and
after 0, 1, 2, 3 or 4 failures `Sick` still returns false. -/
theorem sick_after_exactly_five_failures :
    Sick (runOps initState (List.replicate 5 .fail)) = true ∧
    Sick (runOps initState (List.replicate 0 .fail)) = false ∧
    Sick (runOps initState (List.replicate 1 .fail)) = false ∧
    Sick (runOps initState (List.replicate 2 .fail)) = false ∧
    Sick (runOps initState (List.replicate 3 .fail)) = false ∧
    Sick (runOps initState (List.replicate 4 .fail)) = false := by
  decide

theorem wrap64_small (x : Int) (h1 : -9223372036854775808 ≤ x)
    (h2 : x < 9223372036854775808) : wrap64 x = x := by
  unfold wrap64
  have hlt : x + 9223372036854775808 < 18446744073709551616 := by omega
  have hge : 0 ≤ x + 9223372036854775808 := by omega
  rw [Int.emod_eq_of_lt hge hlt]
  omega

theorem markAlive_of_lt (s : RPCClientState) (h0 : 0 ≤ s.successRate)
    (h4 : s.successRate < 4) :
    markAlive s = { s with successRate := s.successRate + 1 } := by
  unfold markAlive
  rw [wrap64_small (s.successRate + 1) (by omega) (by omega)]
  rw [if_neg (by omega)]

theorem markAlive_of_eq_four (s : RPCClientState) (h : s.successRate = 4) :
    markAlive s = { s with sick := false, sickRate := 0, successRate := 0 } := by
  unfold markAlive
  have h5 : wrap64 (s.successRate + 1) = 5 := by rw [h]; decide
  rw [h5, if_pos (by norm_num)]

theorem markSick_of_sick (s : RPCClientState) (h : s.sick = true) :
    markSick s = { s with sickRate := wrap64 (s.sickRate + 1),
                          successRate := 0, sick := true } := by
  unfold markSick
  rw [h]
  simp only [Bool.not_true, Bool.false_eq_true, if_false]
  by_cases hc : wrap64 (s.sickRate + 1) ≥ 5 <;> simp [hc]

/-- Claim C2 fails as stated: a reachable client in the Sick state (5
failures then 4 successes) is cured by a single further success, so "after
fewer than 5 successes the client is still Sick" does not hold of every
Sick client. -/
theorem sick_state_cured_by_one_success :
    Sick (runOps initState (List.replicate 5 .fail ++ List.replicate 4 .succeed))
      = true ∧
    Sick (markAlive (runOps initState
        (List.replicate 5 .fail ++ List.replicate 4 .succeed))) = false := by
  decide

/-- Claim C2 amended: for every Sick client whose success streak counter is
zero (as it is immediately after any failure notification, in particular on
entering Sick), exactly 5 consecutive success notifications clear `sick`
and leave both streak counters zero, while after 1, 2, 3 or 4 of them the
client is still Sick. -/
theorem five_successes_cure_sick (s : RPCClientState) (hsick : s.sick = true)
    (hsu : s.successRate = 0) :
    Sick (runOps s (List.replicate 5 .succeed)) = false ∧
    (runOps s (List.replicate 5 .succeed)).sickRate = 0 ∧
    (runOps s (List.replicate 5 .succeed)).successRate = 0 ∧
    Sick (runOps s (List.replicate 1 .succeed)) = true ∧
    Sick (runOps s (List.replicate 2 .succeed)) = true ∧
    Sick (runOps s (List.replicate 3 .succeed)) = true ∧
    Sick (runOps s (List.replicate 4 .succeed)) = true := by
  have h1 : markAlive s = { s with successRate := 1 } := by
    rw [markAlive_of_lt s (by omega) (by omega), hsu]
    norm_num
  have h2 : markAlive { s with successRate := (1 : Int) }
      = { s with successRate := 2 } := by
    rw [markAlive_of_lt _ (by norm_num) (by norm_num)]
    norm_num
  have h3 : markAlive { s with successRate := (2 : Int) }
      = { s with successRate := 3 } := by
    rw [markAlive_of_lt _ (by norm_num) (by norm_num)]
    norm_num
  have h4 : markAlive { s with successRate := (3 : Int) }
      = { s with successRate := 4 } := by
    rw [markAlive_of_lt _ (by norm_num) (by norm_num)]
    norm_num
  have h5 : markAlive { s with successRate := (4 : Int) }
      = { s with sick := false, sickRate := 0, successRate := 0 } := by
    rw [markAlive_of_eq_four _ (by norm_num)]
  have e1 : runOps s (List.replicate 1 .succeed) = { s with successRate := 1 } := by
    simp only [List.replicate, runOps, List.foldl, applyOp]
    rw [h1]
  have e2 : runOps s (List.replicate 2 .succeed) = { s with successRate := 2 } := by
    simp only [List.replicate, runOps, List.foldl, applyOp]
    rw [h1, h2]
  have e3 : runOps s (List.replicate 3 .succeed) = { s with successRate := 3 } := by
    simp only [List.replicate, runOps, List.foldl, applyOp]
    rw [h1, h2, h3]
  have e4 : runOps s (List.replicate 4 .succeed) = { s with successRate := 4 } := by
    simp only [List.replicate, runOps, List.foldl, applyOp]
    rw [h1, h2, h3, h4]
  have e5 : runOps s (List.replicate 5 .succeed)
      = { s with sick := false, sickRate := 0, successRate := 0 } := by
    simp only [List.replicate, runOps, List.foldl, applyOp]
    rw [h1, h2, h3, h4, h5]
  refine ⟨?_, ?_, ?_, ?_, ?_, ?_, ?_⟩
  · rw [Sick, e5]
  · rw [e5]
  · rw [e5]
  · rw [Sick, e1]
    exact hsick
  · rw [Sick, e2]
    exact hsick
  · rw [Sick, e3]
    exact hsick
  · rw [Sick, e4]
    exact hsick

theorem five_successes_cure_sick_witness :
    (Sick (runOps (runOps initState (List.replicate 5 .fail))
        (List.replicate 5 .succeed)) = false ∧
    (runOps (runOps initState (List.replicate 5 .fail))
        (List.replicate 5 .succeed)).sickRate = 0 ∧
    (runOps (runOps initState (List.replicate 5 .fail))
        (List.replicate 5 .succeed)).successRate = 0 ∧
    Sick (runOps (runOps initState (List.replicate 5 .fail))
        (List.replicate 1 .succeed)) = true ∧
    Sick (runOps (runOps initState (List.replicate 5 .fail))
        (List.replicate 2 .succeed)) = true ∧
    Sick (runOps (runOps initState (List.replicate 5 .fail))
        (List.replicate 3 .succeed)) = true ∧
    Sick (runOps (runOps initState (List.replicate 5 .fail))
        (List.replicate 4 .succeed)) = true) :=
  five_successes_cure_sick (runOps initState (List.replicate 5 .fail))
    (by decide) (by decide)

/-- Claim C3 fails as stated: after 3 failure notifications followed by one
success notification (a reachable interleaving) both streak counters are
non-zero — `markAlive` does not reset `sickRate` below the threshold. -/
theorem both_streaks_nonzero :
    (runOps initState [.fail, .fail, .fail, .succeed]).sickRate = 3 ∧
    (runOps initState [.fail, .fail, .fail, .succeed]).successRate = 1 := by
  decide

/-- Claim C3 amended: a failure notification always resets `successRate` to
zero, but a success notification leaves `sickRate` (and `sick`) untouched
unless it is the 5th consecutive success, at which point `sick` clears and
both streak counters reset to zero; consequently both counters can be
non-zero at once during a success streak that follows an incomplete failure
streak. -/
theorem streak_reset_asymmetry (s : RPCClientState) :
    (markSick s).successRate = 0 ∧
    (0 ≤ s.successRate → s.successRate < 4 →
      (markAlive s).sickRate = s.sickRate ∧ (markAlive s).sick = s.sick) ∧
    (s.successRate = 4 →
      (markAlive s).sick = false ∧ (markAlive s).sickRate = 0 ∧
      (markAlive s).successRate = 0) := by
  refine ⟨by simp [markSick], fun h0 h4 => ?_, fun h => ?_⟩
  · rw [markAlive_of_lt s h0 h4]
    exact ⟨rfl, rfl⟩
  · rw [markAlive_of_eq_four s h]
    exact ⟨rfl, rfl, rfl⟩

theorem streak_reset_asymmetry_witness :
    ((markSick initState).successRate = 0 ∧
    ((markAlive initState).sickRate = initState.sickRate ∧
      (markAlive initState).sick = initState.sick) ∧
    ((markAlive ⟨2, 4, 1, false, none⟩).sick = false ∧
      (markAlive ⟨2, 4, 1, false, none⟩).sickRate = 0 ∧
      (markAlive ⟨2, 4, 1, false, none⟩).successRate = 0)) :=
  ⟨(streak_reset_asymmetry initState).1,
   (streak_reset_asymmetry initState).2.1 (by decide) (by decide),
   (streak_reset_asymmetry ⟨2, 4, 1, false, none⟩).2.2 (by decide)⟩

/-- Claim C4 fails as stated: a single failure streak of length 2 from the
initial state (one maximal run of consecutive failures starting not-Sick)
increases `FailsCount` by 2, not by at most 1 — the guard in `markSick`
tests the `sick` flag, which stays false until the 5th failure. -/
theorem failsCount_twice_in_one_streak :
    (runOps initState [.fail, .fail]).failsCount = 2 := by
  decide

theorem runOps_fail_of_sick (s : RPCClientState) (h : s.sick = true) :
    ∀ n : ℕ, (runOps s (List.replicate n .fail)).failsCount = s.failsCount ∧
      (runOps s (List.replicate n .fail)).sick = true := by
  intro n
  induction n generalizing s with
  | zero => exact ⟨rfl, h⟩
  | succ m ih =>
      rw [List.replicate_succ, runOps_cons]
      have hstep : applyOp s .fail
          = { s with sickRate := wrap64 (s.sickRate + 1),
                     successRate := 0, sick := true } := by
        simpa [applyOp] using markSick_of_sick s h
      rw [hstep]
      exact ih _ rfl

/-- Claim C4 amended: `FailsCount` is incremented by each failure that
occurs while the `sick` flag is still false, so a streak of n consecutive
failures from the initial state raises `FailsCount` by min n 5 — once per
failure of the streak until the flag flips on the 5th, not once per
streak. -/
theorem failsCount_min_streak_five (n : ℕ) :
    (runOps initState (List.replicate n .fail)).failsCount = min (n : Int) 5 := by
  rcases n with _ | _ | _ | _ | _ | m
  · decide
  · decide
  · decide
  · decide
  · decide
  · have hsplit : List.replicate (m + 5) HealthOp.fail
        = List.replicate 5 HealthOp.fail ++ List.replicate m HealthOp.fail := by
      rw [← List.replicate_add]
      norm_num [Nat.add_comm]
    rw [hsplit, runOps_append]
    have h5 : runOps initState (List.replicate 5 HealthOp.fail)
        = { sickRate := 5, successRate := 0, failsCount := 5, sick := true,
            info := none } := by decide
    rw [h5]
    have := runOps_fail_of_sick
      { sickRate := 5, successRate := 0, failsCount := 5, sick := true,
        info := none } rfl m
    rw [this.1]
    have : (5 : Int) ≤ ((m : Int) + 5) := by omega
    simp [min_eq_right this]
    omega

/-- `json.RawMessage`: an undecoded JSON fragment, handed to the external
decoders modelled as parameters below. -/
abbrev RawMessage := String

/-- A Go `interface{}` value sitting in the decoded `error` map: either a
string or some non-string value (any other dynamic type). -/
inductive GoVal where
  | str (s : String)
  | other
  deriving Repr, DecidableEq

/-- Go `map[string]interface{}` lookup, the map modelled as an association
list with distinct keys. -/
def mapLookup (k : String) : List (String × GoVal) → Option GoVal
  | [] => none
  | (k2, v) :: rest => if k2 = k then some v else mapLookup k rest

/-- `JSONRpcResp` (rpc.go lines 79-83): pointers become `Option`, the
`error` map becomes an optional association list. -/
structure JSONRpcResp where
  id : Option RawMessage
  result : Option RawMessage
  error : Option (List (String × GoVal))
  deriving Repr, DecidableEq

/-- Outcome of decoding the HTTP response body into `*JSONRpcResp`
(`json.NewDecoder(resp.Body).Decode`, rpc.go line 179), abstracting the
external JSON decoder. -/
inductive BodyOutcome where
  | malformed (e : String)
  | decoded (resp : JSONRpcResp)
  deriving Repr, DecidableEq

/-- Outcome of the HTTP round trip `r.client.Do(req)` (rpc.go line 167),
abstracting the external HTTP client: either a transport error or a
response with a status code, a status text and a body. -/
inductive HttpOutcome where
  | connError (e : String)
  | response (statusCode : Int) (status : String) (body : BodyOutcome)
  deriving Repr, DecidableEq

/-- `doPost` (rpc.go lines 159-189) as a state transformer over the HTTP
outcome.  Errors are the Go error strings.  The result is `none` exactly
when the Go code panics: the unchecked type assertion
`rpcResp.Error["message"].(string)` on line 186 panics when the `message`
key is absent or holds a non-string value. -/
def doPost (s : RPCClientState) (r : HttpOutcome) :
    Option (RPCClientState × Except String JSONRpcResp) :=
  match r with
  | .connError e => some (markSick s, .error e)
  | .response code status body =>
      if code < 200 ∨ code ≥ 400 then
        some (s, .error status)
      else
        match body with
        | .malformed e => some (markSick s, .error e)
        | .decoded resp =>
            match resp.error with
            | some errObj =>
                match mapLookup "message" errObj with
                | some (.str m) => some (markSick s, .error m)
                | _ => none
            | none => some (s, .ok resp)

/-- `GetBlockTemplateReply` (rpc.go lines 34-42). -/
structure GetBlockTemplateReply where
  difficulty : Int
  height : Int
  blob : String
  reservedOffset : Int
  prevHash : String
  expectedReward : Int
  deriving Repr, DecidableEq

/-- `BlockHeader` (rpc.go lines 52-66). -/
structure BlockHeader where
  blockSize : Int
  depth : Int
  difficulty : Int
  hash : String
  height : Int
  majorVersion : Int
  minorVersion : Int
  nonce : Int
  numTxes : Int
  orphanStatus : Bool
  prevHash : String
  reward : Int
  timestamp : Int
  deriving Repr, DecidableEq

/-- `GetBlockHeaderReply` (rpc.go lines 68-72). -/
structure GetBlockHeaderReply where
  blockHeader : BlockHeader
  status : String
  untrusted : Bool
  deriving Repr, DecidableEq

/-- `GetBlockCountReply` (rpc.go lines 74-77). -/
structure GetBlockCountReply where
  count : Int
  status : String
  deriving Repr, DecidableEq

/-- `GetBlockTemplate` (rpc.go lines 103-114).  `dec` abstracts the external
`json.Unmarshal` into `GetBlockTemplateReply`; `reserveSize` and `address`
only shape the wire request, which is abstracted by the `HttpOutcome`
argument.  Returns the new state, the (possibly nil) typed reply and the
(possibly nil) error; `none` is a panic inside `doPost`. -/
def GetBlockTemplate (dec : RawMessage → Except String GetBlockTemplateReply)
    (_reserveSize : Int) (_address : String)
    (s : RPCClientState) (r : HttpOutcome) :
    Option (RPCClientState × Option GetBlockTemplateReply × Option String) :=
  match doPost s r with
  | none => none
  | some (s2, .error e) => some (s2, none, some e)
  | some (s2, .ok resp) =>
      match resp.result with
      | none => some (s2, none, none)
      | some raw =>
          match dec raw with
          | .ok rep => some (s2, some rep, none)
          | .error e => some (s2, none, some e)

/-- `GetInfo` (rpc.go lines 116-127). -/
def GetInfo (dec : RawMessage → Except String GetInfoReply)
    (s : RPCClientState) (r : HttpOutcome) :
    Option (RPCClientState × Option GetInfoReply × Option String) :=
  match doPost s r with
  | none => none
  | some (s2, .error e) => some (s2, none, some e)
  | some (s2, .ok resp) =>
      match resp.result with
      | none => some (s2, none, none)
      | some raw =>
          match dec raw with
          | .ok rep => some (s2, some rep, none)
          | .error e => some (s2, none, some e)

/-- `GetBlockCount` (rpc.go lines 129-140). -/
def GetBlockCount (dec : RawMessage → Except String GetBlockCountReply)
    (s : RPCClientState) (r : HttpOutcome) :
    Option (RPCClientState × Option GetBlockCountReply × Option String) :=
  match doPost s r with
  | none => none
  | some (s2, .error e) => some (s2, none, some e)
  | some (s2, .ok resp) =>
      match resp.result with
      | none => some (s2, none, none)
      | some raw =>
          match dec raw with
          | .ok rep => some (s2, some rep, none)
          | .error e => some (s2, none, some e)

/-- `SubmitBlock` (rpc.go lines 142-144): passes the raw RPC response
through, no typed decoding. -/
def SubmitBlock (_hash : String) (s : RPCClientState) (r : HttpOutcome) :
    Option (RPCClientState × Except String JSONRpcResp) :=
  doPost s r

/-- `GetBlockHeaderByHeight` (rpc.go lines 146-157). -/
def GetBlockHeaderByHeight (dec : RawMessage → Except String GetBlockHeaderReply)
    (_height : Int) (s : RPCClientState) (r : HttpOutcome) :
    Option (RPCClientState × Option GetBlockHeaderReply × Option String) :=
  match doPost s r with
  | none => none
  | some (s2, .error e) => some (s2, none, some e)
  | some (s2, .ok resp) =>
      match resp.result with
      | none => some (s2, none, none)
      | some raw =>
          match dec raw with
          | .ok rep => some (s2, some rep, none)
          | .error e => some (s2, none, some e)

/-- `Check` (rpc.go lines 191-198): a `GetBlockTemplate` probe; on error,
return false with the error; on success, `markAlive` then return the
negation of `Sick`. -/
def Check (dec : RawMessage → Except String GetBlockTemplateReply)
    (reserveSize : Int) (address : String)
    (s : RPCClientState) (r : HttpOutcome) :
    Option (RPCClientState × Bool × Option String) :=
  match GetBlockTemplate dec reserveSize address s r with
  | none => none
  | some (s2, _, some e) => some (s2, false, some e)
  | some (s2, _, none) =>
      let s3 := markAlive s2
      some (s3, !Sick s3, none)

/-- Claim C5: through `doPost`, a transport error, a decode error and an
application error object (with a string message) each perform exactly one
`markSick` and return an error, while an HTTP status outside [200,400)
returns an error with the state — `sick`, `sickRate`, `successRate`,
`FailsCount` and all — completely unchanged. -/
theorem doPost_error_classes (s : RPCClientState) :
    (∀ e, doPost s (.connError e) = some (markSick s, .error e)) ∧
    (∀ code status body, code < 200 ∨ code ≥ 400 →
      doPost s (.response code status body) = some (s, .error status)) ∧
    (∀ code status e, 200 ≤ code → code < 400 →
      doPost s (.response code status (.malformed e))
        = some (markSick s, .error e)) ∧
    (∀ code status resp errObj m, 200 ≤ code → code < 400 →
      resp.error = some errObj →
      mapLookup "message" errObj = some (.str m) →
      doPost s (.response code status (.decoded resp))
        = some (markSick s, .error m)) := by
  refine ⟨fun e => rfl, fun code status body h => ?_,
    fun code status e h1 h2 => ?_,
    fun code status resp errObj m h1 h2 he hm => ?_⟩
  · simp only [doPost]
    rw [if_pos h]
  · simp only [doPost]
    rw [if_neg (by omega)]
  · simp only [doPost]
    rw [if_neg (by omega)]
    simp only [he, hm]

theorem doPost_error_classes_witness :
    (doPost initState (.connError "refused")
        = some (markSick initState, .error "refused")) ∧
    (doPost initState
        (.response 500 "500 Internal Server Error" (.malformed "x"))
        = some (initState, .error "500 Internal Server Error")) ∧
    (doPost initState (.response 200 "200 OK" (.malformed "bad json"))
        = some (markSick initState, .error "bad json")) ∧
    (doPost initState (.response 200 "200 OK"
        (.decoded ⟨none, none, some [("message", .str "oops")]⟩))
        = some (markSick initState, .error "oops")) :=
  ⟨(doPost_error_classes initState).1 "refused",
   (doPost_error_classes initState).2.1 500 "500 Internal Server Error"
     (.malformed "x") (by norm_num),
   (doPost_error_classes initState).2.2.1 200 "200 OK" "bad json"
     (by norm_num) (by norm_num),
   (doPost_error_classes initState).2.2.2 200 "200 OK"
     ⟨none, none, some [("message", .str "oops")]⟩
     [("message", .str "oops")] "oops" (by norm_num) (by norm_num) rfl rfl⟩

theorem doPost_ok_state (s : RPCClientState) (r : HttpOutcome)
    (s2 : RPCClientState) (resp : JSONRpcResp)
    (h : doPost s r = some (s2, .ok resp)) : s2 = s := by
  cases r with
  | connError e => simp [doPost] at h
  | response code status body =>
      by_cases hc : code < 200 ∨ code ≥ 400
      · simp only [doPost] at h
        rw [if_pos hc] at h
        simp at h
      · simp only [doPost] at h
        rw [if_neg hc] at h
        cases body with
        | malformed e => simp at h
        | decoded resp2 =>
            cases herr : resp2.error with
            | none =>
                simp only [herr] at h
                exact (Prod.mk.inj (Option.some.inj h)).1.symm
            | some errObj =>
                simp only [herr] at h
                cases hm : mapLookup "message" errObj with
                | none => simp [hm] at h
                | some v =>
                    cases v with
                    | str m => simp [hm] at h
                    | other => simp [hm] at h

/-- The decode-and-return tail shared literally by the four typed getters
(rpc.go lines 106-113, 119-126, 132-139, 149-156). -/
def typedTail {α : Type} (dec : RawMessage → Except String α)
    (out : Option (RPCClientState × Except String JSONRpcResp)) :
    Option (RPCClientState × Option α × Option String) :=
  match out with
  | none => none
  | some (s2, .error e) => some (s2, none, some e)
  | some (s2, .ok resp) =>
      match resp.result with
      | none => some (s2, none, none)
      | some raw =>
          match dec raw with
          | .ok rep => some (s2, some rep, none)
          | .error e => some (s2, none, some e)

theorem getBlockTemplate_eq_typedTail
    (dec : RawMessage → Except String GetBlockTemplateReply)
    (rs : Int) (addr : String) (s : RPCClientState) (r : HttpOutcome) :
    GetBlockTemplate dec rs addr s r = typedTail dec (doPost s r) := by
  rcases hd : doPost s r with _ | ⟨s3, e | resp⟩
  · simp only [GetBlockTemplate, typedTail, hd]
  · simp only [GetBlockTemplate, typedTail, hd]
  · rcases hres : resp.result with _ | raw
    · simp only [GetBlockTemplate, typedTail, hd, hres]
    · rcases hdec : dec raw with e2 | rep
      · simp only [GetBlockTemplate, typedTail, hd, hres, hdec]
      · simp only [GetBlockTemplate, typedTail, hd, hres, hdec]

theorem getInfo_eq_typedTail (dec : RawMessage → Except String GetInfoReply)
    (s : RPCClientState) (r : HttpOutcome) :
    GetInfo dec s r = typedTail dec (doPost s r) := by
  rcases hd : doPost s r with _ | ⟨s3, e | resp⟩
  · simp only [GetInfo, typedTail, hd]
  · simp only [GetInfo, typedTail, hd]
  · rcases hres : resp.result with _ | raw
    · simp only [GetInfo, typedTail, hd, hres]
    · rcases hdec : dec raw with e2 | rep
      · simp only [GetInfo, typedTail, hd, hres, hdec]
      · simp only [GetInfo, typedTail, hd, hres, hdec]

theorem getBlockCount_eq_typedTail
    (dec : RawMessage → Except String GetBlockCountReply)
    (s : RPCClientState) (r : HttpOutcome) :
    GetBlockCount dec s r = typedTail dec (doPost s r) := by
  rcases hd : doPost s r with _ | ⟨s3, e | resp⟩
  · simp only [GetBlockCount, typedTail, hd]
  · simp only [GetBlockCount, typedTail, hd]
  · rcases hres : resp.result with _ | raw
    · simp only [GetBlockCount, typedTail, hd, hres]
    · rcases hdec : dec raw with e2 | rep
      · simp only [GetBlockCount, typedTail, hd, hres, hdec]
      · simp only [GetBlockCount, typedTail, hd, hres, hdec]

theorem getBlockHeaderByHeight_eq_typedTail
    (dec : RawMessage → Except String GetBlockHeaderReply)
    (hgt : Int) (s : RPCClientState) (r : HttpOutcome) :
    GetBlockHeaderByHeight dec hgt s r = typedTail dec (doPost s r) := by
  rcases hd : doPost s r with _ | ⟨s3, e | resp⟩
  · simp only [GetBlockHeaderByHeight, typedTail, hd]
  · simp only [GetBlockHeaderByHeight, typedTail, hd]
  · rcases hres : resp.result with _ | raw
    · simp only [GetBlockHeaderByHeight, typedTail, hd, hres]
    · rcases hdec : dec raw with e2 | rep
      · simp only [GetBlockHeaderByHeight, typedTail, hd, hres, hdec]
      · simp only [GetBlockHeaderByHeight, typedTail, hd, hres, hdec]

theorem typedTail_ok_state {α : Type} (dec : RawMessage → Except String α)
    (s : RPCClientState) (r : HttpOutcome) (s2 : RPCClientState)
    (rep : Option α)
    (h : typedTail dec (doPost s r) = some (s2, rep, none)) : s2 = s := by
  rcases hd : doPost s r with _ | ⟨s3, e | resp⟩
  · rw [hd] at h
    simp [typedTail] at h
  · rw [hd] at h
    simp [typedTail] at h
  · have hs := doPost_ok_state s r s3 resp hd
    rw [hd] at h
    simp only [typedTail] at h
    split at h
    · exact (Prod.mk.inj (Option.some.inj h)).1 ▸ hs
    · split at h
      · exact (Prod.mk.inj (Option.some.inj h)).1 ▸ hs
      · simp at h

/-- Claim C6: a successful typed call — `GetBlockTemplate`, `GetInfo`,
`GetBlockCount`, `SubmitBlock` or `GetBlockHeaderByHeight` returning with
no error outside `Check` — leaves the health state completely unchanged;
only `Check` performs the success transition: on a successful probe it
applies exactly one `markAlive` and returns the negation of the
post-transition `Sick` value. -/
theorem typed_calls_frame
    (decT : RawMessage → Except String GetBlockTemplateReply)
    (decI : RawMessage → Except String GetInfoReply)
    (decC : RawMessage → Except String GetBlockCountReply)
    (decH : RawMessage → Except String GetBlockHeaderReply)
    (rs hgt : Int) (addr hash : String)
    (s : RPCClientState) (r : HttpOutcome) :
    (∀ s2 rep, GetBlockTemplate decT rs addr s r = some (s2, rep, none) →
      s2 = s) ∧
    (∀ s2 rep, GetInfo decI s r = some (s2, rep, none) → s2 = s) ∧
    (∀ s2 rep, GetBlockCount decC s r = some (s2, rep, none) → s2 = s) ∧
    (∀ s2 resp, SubmitBlock hash s r = some (s2, .ok resp) → s2 = s) ∧
    (∀ s2 rep, GetBlockHeaderByHeight decH hgt s r = some (s2, rep, none) →
      s2 = s) ∧
    (∀ s2 b, Check decT rs addr s r = some (s2, b, none) →
      s2 = markAlive s ∧ b = !Sick (markAlive s)) := by
  refine ⟨fun s2 rep h => ?_, fun s2 rep h => ?_, fun s2 rep h => ?_,
    fun s2 resp h => ?_, fun s2 rep h => ?_, fun s2 b h => ?_⟩
  · exact typedTail_ok_state decT s r s2 rep
      (getBlockTemplate_eq_typedTail decT rs addr s r ▸ h)
  · exact typedTail_ok_state decI s r s2 rep
      (getInfo_eq_typedTail decI s r ▸ h)
  · exact typedTail_ok_state decC s r s2 rep
      (getBlockCount_eq_typedTail decC s r ▸ h)
  · exact doPost_ok_state s r s2 resp h
  · exact typedTail_ok_state decH s r s2 rep
      (getBlockHeaderByHeight_eq_typedTail decH hgt s r ▸ h)
  · rcases hg : GetBlockTemplate decT rs addr s r with _ | ⟨s3, rep, oe⟩
    · simp [Check, hg] at h
    · cases oe with
      | some e =>
          simp [Check, hg] at h
      | none =>
          have hs : s3 = s := typedTail_ok_state decT s r s3 rep
            (getBlockTemplate_eq_typedTail decT rs addr s r ▸ hg)
          simp only [Check, hg] at h
          obtain ⟨h1, h2⟩ := Prod.mk.inj (Option.some.inj h)
          subst hs
          exact ⟨h1.symm, (Prod.mk.inj h2).1.symm⟩

theorem typed_calls_frame_witness :
    (initState = initState ∧ initState = initState ∧
    initState = initState ∧ initState = initState ∧ initState = initState ∧
    (markAlive initState = markAlive initState ∧
      !Sick (markAlive initState) = !Sick (markAlive initState))) := by
  have H := typed_calls_frame (fun _ => Except.error "e")
    (fun _ => Except.error "e") (fun _ => Except.error "e")
    (fun _ => Except.error "e") 8 7 "wallet" "deadbeef" initState
    (.response 200 "200 OK" (.decoded ⟨none, none, none⟩))
  exact ⟨H.1 initState none rfl, H.2.1 initState none rfl,
    H.2.2.1 initState none rfl, H.2.2.2.1 initState ⟨none, none, none⟩ rfl,
    H.2.2.2.2.1 initState none rfl,
    H.2.2.2.2.2 (markAlive initState) (!Sick (markAlive initState)) rfl⟩

/-- Claim C7: when the RPC envelope decodes successfully but its `result`
field is absent, each of the four typed getters returns a nil reply
together with a nil error — a success outcome distinct from an error
return. -/
theorem typed_calls_nil_reply
    (decT : RawMessage → Except String GetBlockTemplateReply)
    (decI : RawMessage → Except String GetInfoReply)
    (decC : RawMessage → Except String GetBlockCountReply)
    (decH : RawMessage → Except String GetBlockHeaderReply)
    (rs hgt : Int) (addr : String) (s : RPCClientState) (r : HttpOutcome)
    (s2 : RPCClientState) (resp : JSONRpcResp)
    (hd : doPost s r = some (s2, .ok resp)) (hres : resp.result = none) :
    GetBlockTemplate decT rs addr s r = some (s2, none, none) ∧
    GetInfo decI s r = some (s2, none, none) ∧
    GetBlockCount decC s r = some (s2, none, none) ∧
    GetBlockHeaderByHeight decH hgt s r = some (s2, none, none) := by
  refine ⟨?_, ?_, ?_, ?_⟩
  · simp only [GetBlockTemplate, hd, hres]
  · simp only [GetInfo, hd, hres]
  · simp only [GetBlockCount, hd, hres]
  · simp only [GetBlockHeaderByHeight, hd, hres]

theorem typed_calls_nil_reply_witness :
    GetBlockTemplate (fun _ => Except.error "e") 8 "wallet" initState
      (.response 200 "200 OK" (.decoded ⟨none, none, none⟩))
      = some (initState, none, none) ∧
    GetInfo (fun _ => Except.error "e") initState
      (.response 200 "200 OK" (.decoded ⟨none, none, none⟩))
      = some (initState, none, none) ∧
    GetBlockCount (fun _ => Except.error "e") initState
      (.response 200 "200 OK" (.decoded ⟨none, none, none⟩))
      = some (initState, none, none) ∧
    GetBlockHeaderByHeight (fun _ => Except.error "e") 7 initState
      (.response 200 "200 OK" (.decoded ⟨none, none, none⟩))
      = some (initState, none, none) :=
  typed_calls_nil_reply (fun _ => Except.error "e") (fun _ => Except.error "e")
    (fun _ => Except.error "e") (fun _ => Except.error "e") 8 7 "wallet"
    initState (.response 200 "200 OK" (.decoded ⟨none, none, none⟩))
    initState ⟨none, none, none⟩ rfl rfl

/-- `UpdateInfo` (rpc.go lines 230-236): call `GetInfo`; when it returns no
error, store the reply — whatever it is, a nil pointer included — in the
info cache; return the reply and the error. -/
def UpdateInfo (dec : RawMessage → Except String GetInfoReply)
    (s : RPCClientState) (r : HttpOutcome) :
    Option (RPCClientState × Option GetInfoReply × Option String) :=
  match GetInfo dec s r with
  | none => none
  | some (s2, rep, none) => some ({ s2 with info := some rep }, rep, none)
  | some (s2, rep, some e) => some (s2, rep, some e)

/-- `Info` (rpc.go lines 238-241): read the cache; the guarded type
assertion yields nil both for a never-stored cache and for a stored nil
pointer. -/
def Info (s : RPCClientState) : Option GetInfoReply :=
  match s.info with
  | none => none
  | some p => p

theorem markSick_info (s : RPCClientState) : (markSick s).info = s.info := rfl

theorem doPost_info (s : RPCClientState) (r : HttpOutcome)
    (s2 : RPCClientState) (res : Except String JSONRpcResp)
    (h : doPost s r = some (s2, res)) : s2.info = s.info := by
  cases r with
  | connError e =>
      simp only [doPost] at h
      obtain ⟨h1, -⟩ := Prod.mk.inj (Option.some.inj h)
      rw [← h1, markSick_info]
  | response code status body =>
      by_cases hc : code < 200 ∨ code ≥ 400
      · simp only [doPost] at h
        rw [if_pos hc] at h
        obtain ⟨h1, -⟩ := Prod.mk.inj (Option.some.inj h)
        rw [← h1]
      · simp only [doPost] at h
        rw [if_neg hc] at h
        cases body with
        | malformed e =>
            obtain ⟨h1, -⟩ := Prod.mk.inj (Option.some.inj h)
            rw [← h1, markSick_info]
        | decoded resp =>
            cases herr : resp.error with
            | none =>
                simp only [herr] at h
                obtain ⟨h1, -⟩ := Prod.mk.inj (Option.some.inj h)
                rw [← h1]
            | some errObj =>
                simp only [herr] at h
                cases hm : mapLookup "message" errObj with
                | none => simp [hm] at h
                | some v =>
                    cases v with
                    | str m =>
                        simp only [hm] at h
                        obtain ⟨h1, -⟩ := Prod.mk.inj (Option.some.inj h)
                        rw [← h1, markSick_info]
                    | other => simp [hm] at h

theorem getInfo_info (dec : RawMessage → Except String GetInfoReply)
    (s : RPCClientState) (r : HttpOutcome) (s2 : RPCClientState)
    (rep : Option GetInfoReply) (oe : Option String)
    (h : GetInfo dec s r = some (s2, rep, oe)) : s2.info = s.info := by
  rw [getInfo_eq_typedTail] at h
  rcases hd : doPost s r with _ | ⟨s3, e | resp⟩
  · rw [hd] at h
    simp [typedTail] at h
  · rw [hd] at h
    simp only [typedTail] at h
    obtain ⟨h1, -⟩ := Prod.mk.inj (Option.some.inj h)
    rw [← h1]
    exact doPost_info s r s3 (.error e) hd
  · rw [hd] at h
    simp only [typedTail] at h
    have hinfo := doPost_info s r s3 (.ok resp) hd
    split at h
    · obtain ⟨h1, -⟩ := Prod.mk.inj (Option.some.inj h)
      rw [← h1]
      exact hinfo
    · split at h
      · obtain ⟨h1, -⟩ := Prod.mk.inj (Option.some.inj h)
        rw [← h1]
        exact hinfo
      · obtain ⟨h1, -⟩ := Prod.mk.inj (Option.some.inj h)
        rw [← h1]
        exact hinfo

theorem info_read_eq (s1 s2 : RPCClientState) (h : s1.info = s2.info) :
    Info s1 = Info s2 := by
  unfold Info
  rw [h]

/-- Claim C8: `UpdateInfo` propagates a `GetInfo` error unchanged and, on
that error path, leaves the cached snapshot exactly as it was (`Info`
afterwards reads the same value as before); on the no-error path it
replaces the snapshot wholesale with the new reply, which is what `Info`
then returns. -/
theorem updateInfo_spec (dec : RawMessage → Except String GetInfoReply)
    (s : RPCClientState) (r : HttpOutcome) :
    (∀ s2 rep e, GetInfo dec s r = some (s2, rep, some e) →
      UpdateInfo dec s r = some (s2, rep, some e)) ∧
    (∀ s2 rep e, UpdateInfo dec s r = some (s2, rep, some e) →
      s2.info = s.info ∧ Info s2 = Info s) ∧
    (∀ s2 rep, UpdateInfo dec s r = some (s2, rep, none) →
      s2.info = some rep ∧ Info s2 = rep) := by
  refine ⟨fun s2 rep e hg => ?_, fun s2 rep e h => ?_, fun s2 rep h => ?_⟩
  · simp only [UpdateInfo, hg]
  · rcases hg : GetInfo dec s r with _ | ⟨s3, rep2, oe⟩
    · simp [UpdateInfo, hg] at h
    · cases oe with
      | none => simp [UpdateInfo, hg] at h
      | some e2 =>
          simp only [UpdateInfo, hg] at h
          obtain ⟨h1, -⟩ := Prod.mk.inj (Option.some.inj h)
          have hi : s3.info = s.info := getInfo_info dec s r s3 rep2 (some e2) hg
          rw [← h1]
          exact ⟨hi, info_read_eq s3 s hi⟩
  · rcases hg : GetInfo dec s r with _ | ⟨s3, rep2, oe⟩
    · simp [UpdateInfo, hg] at h
    · cases oe with
      | some e2 => simp [UpdateInfo, hg] at h
      | none =>
          simp only [UpdateInfo, hg] at h
          obtain ⟨h1, h2⟩ := Prod.mk.inj (Option.some.inj h)
          have hrep : rep2 = rep := (Prod.mk.inj h2).1
          subst hrep
          rw [← h1]
          exact ⟨rfl, rfl⟩

theorem updateInfo_spec_witness :
    (UpdateInfo (fun _ => Except.error "e") initState (.connError "refused")
      = some (markSick initState, none, some "refused")) ∧
    ((markSick initState).info = initState.info ∧
      Info (markSick initState) = Info initState) ∧
    (({ initState with info := some none }).info
        = some (none : Option GetInfoReply) ∧
      Info { initState with info := some none } = none) := by
  have H := updateInfo_spec (fun _ => Except.error "e") initState
    (.connError "refused")
  have H2 := updateInfo_spec (fun _ => Except.error "e") initState
    (.response 200 "200 OK" (.decoded ⟨none, none, none⟩))
  exact ⟨H.1 (markSick initState) none "refused" rfl,
    H.2.1 (markSick initState) none "refused" rfl,
    H2.2.2 { initState with info := some none } none rfl⟩

/-- The fields of `pool.Upstream` read by `NewRPCClient`: host, port, a
logical name and a timeout duration string. -/
structure Upstream where
  Name : String
  Host : String
  Port : Int
  Timeout : String
  deriving Repr, DecidableEq

/-- A parsed URL as produced by the external `url.Parse`, kept abstract:
only its identity matters here. -/
structure URL where
  raw : String
  deriving Repr, DecidableEq

/-- The one field of `http.Client` that `NewRPCClient` sets: the request
timeout in nanoseconds (`time.Duration`); zero means no timeout. -/
structure HTTPClient where
  timeout : Int
  deriving Repr, DecidableEq

/-- The immutable part of `RPCClient` filled in by `NewRPCClient`. -/
structure RPCClientConfig where
  Name : String
  Url : URL
  client : HTTPClient
  deriving Repr, DecidableEq

/-- The URL string `fmt.Sprintf("http://%s:%v/json_rpc", cfg.Host,
cfg.Port)` (rpc.go line 86). -/
def rawUrl (cfg : Upstream) : String :=
  "http://" ++ cfg.Host ++ ":" ++ toString cfg.Port ++ "/json_rpc"

/-- `NewRPCClient` (rpc.go lines 85-97).  `parseURL` abstracts the external
`url.Parse`; `parseDuration` abstracts `time.ParseDuration`, which returns
the zero duration alongside any parse error — the Go code discards that
error (`timeout, _ := time.ParseDuration(cfg.Timeout)`), so the zero value
is used whenever parsing fails. -/
def NewRPCClient (parseURL : String → Except String URL)
    (parseDuration : String → Except String Int) (cfg : Upstream) :
    Except String RPCClientConfig :=
  match parseURL (rawUrl cfg) with
  | .error e => .error e
  | .ok u =>
      let timeout : Int :=
        match parseDuration cfg.Timeout with
        | .ok d => d
        | .error _ => 0
      .ok { Name := cfg.Name, Url := u, client := { timeout := timeout } }

/-- Claim C9: `NewRPCClient` fails exactly when the URL built from host and
port cannot be parsed, propagating that parse error; a malformed timeout
string never fails construction — its parse error is discarded and the
client is built with a zero (infinite) HTTP timeout. -/
theorem newRPCClient_spec (parseURL : String → Except String URL)
    (parseDuration : String → Except String Int) (cfg : Upstream) :
    (∀ e, parseURL (rawUrl cfg) = .error e →
      NewRPCClient parseURL parseDuration cfg = .error e) ∧
    (∀ u d, parseURL (rawUrl cfg) = .ok u →
      parseDuration cfg.Timeout = .ok d →
      NewRPCClient parseURL parseDuration cfg
        = .ok { Name := cfg.Name, Url := u, client := { timeout := d } }) ∧
    (∀ u e, parseURL (rawUrl cfg) = .ok u →
      parseDuration cfg.Timeout = .error e →
      NewRPCClient parseURL parseDuration cfg
        = .ok { Name := cfg.Name, Url := u, client := { timeout := 0 } }) := by
  refine ⟨fun e hu => ?_, fun u d hu ht => ?_, fun u e hu ht => ?_⟩
  · simp only [NewRPCClient, hu]
  · simp only [NewRPCClient, hu, ht]
  · simp only [NewRPCClient, hu, ht]

theorem newRPCClient_spec_witness :
    (NewRPCClient (fun _ => Except.error "parse error")
        (fun _ => Except.ok 5000000000) ⟨"node", "127.0.0.1", 18081, "5s"⟩
      = Except.error "parse error") ∧
    (NewRPCClient (fun u => Except.ok ⟨u⟩) (fun _ => Except.ok 5000000000)
        ⟨"node", "127.0.0.1", 18081, "5s"⟩
      = Except.ok ⟨"node", ⟨"http://127.0.0.1:18081/json_rpc"⟩,
          ⟨5000000000⟩⟩) ∧
    (NewRPCClient (fun u => Except.ok ⟨u⟩)
        (fun _ => Except.error "time: invalid duration")
        ⟨"node", "127.0.0.1", 18081, "not a duration"⟩
      = Except.ok ⟨"node", ⟨"http://127.0.0.1:18081/json_rpc"⟩, ⟨0⟩⟩) := by
  refine ⟨?_, ?_, ?_⟩
  · exact (newRPCClient_spec (fun _ => Except.error "parse error")
      (fun _ => Except.ok 5000000000) ⟨"node", "127.0.0.1", 18081, "5s"⟩).1
      "parse error" rfl
  · exact (newRPCClient_spec (fun u => Except.ok ⟨u⟩)
      (fun _ => Except.ok 5000000000)
      ⟨"node", "127.0.0.1", 18081, "5s"⟩).2.1
      ⟨"http://127.0.0.1:18081/json_rpc"⟩ 5000000000 (by rfl) rfl
  · exact (newRPCClient_spec (fun u => Except.ok ⟨u⟩)
      (fun _ => Except.error "time: invalid duration")
      ⟨"node", "127.0.0.1", 18081, "not a duration"⟩).2.2
      ⟨"http://127.0.0.1:18081/json_rpc"⟩ "time: invalid duration"
      (by rfl) rfl

/-- Claim C10: on an in-range HTTP status with a decoded envelope carrying
a non-null error object, `doPost` returns the error whose message is the
`message` field only when that key is present and holds a string; when the
key is absent or holds a non-string value, the unchecked type assertion
`rpcResp.Error["message"].(string)` panics — modelled as `doPost` returning
`none` — so the application-error branch is not total.  `markSick` has
already run when the panic happens. -/
theorem doPost_message_assertion (s : RPCClientState) (code : Int)
    (status : String) (resp : JSONRpcResp)
    (errObj : List (String × GoVal))
    (h1 : 200 ≤ code) (h2 : code < 400) (he : resp.error = some errObj) :
    (∀ m, mapLookup "message" errObj = some (.str m) →
      doPost s (.response code status (.decoded resp))
        = some (markSick s, .error m)) ∧
    (mapLookup "message" errObj = none →
      doPost s (.response code status (.decoded resp)) = none) ∧
    (mapLookup "message" errObj = some .other →
      doPost s (.response code status (.decoded resp)) = none) := by
  refine ⟨fun m hm => ?_, fun hm => ?_, fun hm => ?_⟩
  · simp only [doPost]
    rw [if_neg (by omega)]
    simp only [he, hm]
  · simp only [doPost]
    rw [if_neg (by omega)]
    simp only [he, hm]
  · simp only [doPost]
    rw [if_neg (by omega)]
    simp only [he, hm]

theorem doPost_message_assertion_witness :
    (doPost initState (.response 200 "200 OK"
        (.decoded ⟨none, none, some [("message", .str "Invalid params")]⟩))
      = some (markSick initState, .error "Invalid params")) ∧
    (doPost initState (.response 200 "200 OK"
        (.decoded ⟨none, none, some [("code", .other)]⟩)) = none) ∧
    (doPost initState (.response 200 "200 OK"
        (.decoded ⟨none, none, some [("message", .other)]⟩)) = none) := by
  refine ⟨?_, ?_, ?_⟩
  · exact (doPost_message_assertion initState 200 "200 OK"
      ⟨none, none, some [("message", .str "Invalid params")]⟩
      [("message", .str "Invalid params")] (by norm_num) (by norm_num)
      rfl).1 "Invalid params" rfl
  · exact (doPost_message_assertion initState 200 "200 OK"
      ⟨none, none, some [("code", .other)]⟩ [("code", .other)]
      (by norm_num) (by norm_num) rfl).2.1 rfl
  · exact (doPost_message_assertion initState 200 "200 OK"
      ⟨none, none, some [("message", .other)]⟩ [("message", .other)]
      (by norm_num) (by norm_num) rfl).2.2 rfl

end Rpc
